import Mathlib

/-!
Verification of the transcript-resolver service in `api/index.py`.

The development shallowly embeds the single request handler
`generate_itinerary` and its helper `call_gemini_with_retry`:

* pure string manipulation (regex video-id search, the ad-hoc VTT parser,
  `str.strip`, `str.isdigit`, `str.startswith`, `" ".join`) is translated
  into executable Lean functions over `String` / `List Char`;
* the network is an explicit environment: the primary transcript strategy
  is an `Option (List String)` (fragment texts, `none` = the library call
  raised), each Invidious mirror is a record of its metadata and caption
  responses, and the Gemini call is an oracle `Nat → Except String GenResp`
  indexed by attempt number;
* every outbound request issued by the handler is recorded in an event
  trace, so ordering/at-most-once properties are statements about traces;
* Python exception flow is explicit: the handler body returns
  `Except PyExc` values and the boundary `except Exception` clause at the
  end of the handler converts any escaping exception `e` into
  `HTTPException(500, str(e))`.  Note that `fastapi.HTTPException` derives
  `Exception`, so the `HTTPException(429, ...)` raised inside the `try`
  block is itself caught by that clause; `str` of a starlette
  `HTTPException` renders as "<status_code>: <detail>".
-/

namespace Travel

/-- Python `str.strip()` whitespace test, restricted to the ASCII
whitespace characters (space, tab, LF, CR, VT, FF). -/
def pyIsSpace (c : Char) : Bool :=
  c = ' ' || c = '\t' || c = '\n' || c = '\r' || c = '\x0b' || c = '\x0c'

/-- Strip `pyIsSpace` characters from both ends of a character list. -/
def stripChars (l : List Char) : List Char :=
  ((l.dropWhile pyIsSpace).reverse.dropWhile pyIsSpace).reverse

/-- Python `line.strip()`. -/
def pyStrip (s : String) : String :=
  String.mk (stripChars s.data)

/-- Python `s.isdigit()` (ASCII digits): nonempty and all digits. -/
def pyIsDigitStr (s : String) : Bool :=
  !s.data.isEmpty && s.data.all Char.isDigit

/-- Python `s.startswith(pat)`. -/
def pyStartsWith (pat s : String) : Bool :=
  pat.data.isPrefixOf s.data

/-- Python `"-->" in line`. -/
def hasArrow : List Char → Bool
  | '-' :: '-' :: '>' :: _ => true
  | _ :: rest => hasArrow rest
  | [] => false

/-- The character class `[0-9A-Za-z_-]` of the video-id regex. -/
def isIdChar (c : Char) : Bool :=
  c.isDigit || c.isAlpha || c = '_' || c = '-'

/-- The 11-character `[0-9A-Za-z_-]` capture group: succeeds iff at least 11
characters of the class follow, returning exactly the first 11. -/
def try11 (l : List Char) : Option (List Char) :=
  let t := l.take 11
  if t.length = 11 && t.all isIdChar then some t else none

/-- One position of the video-id regex (the pattern of line 40): the
alternation tries `v=` first, then `/`, then the capture group. -/
def matchAt (l : List Char) : Option (List Char) :=
  if l.take 2 = ['v', '='] then try11 (l.drop 2)
  else if l.take 1 = ['/'] then try11 (l.drop 1)
  else none

/-- Python re.search: scan positions left to right, return the first match. -/
def searchId : List Char → Option (List Char)
  | [] => none
  | c :: rest =>
    match matchAt (c :: rest) with
    | some t => some t
    | none => searchId rest

/-- Line 40: Python re.search of the video-id pattern applied to the URL,
as a total function (`none` models the `AttributeError` raised by
`.group` on a failed search). -/
def extract_video_id (url : String) : Option String :=
  (searchId url.data).map String.mk

/-- The line filter of the "Simple VTT parser" (lines 106-110):
keep a line iff `"-->" not in line and not line.strip().isdigit()
and line.strip() and not line.startswith("WEBVTT")`. -/
def keepLine (l : String) : Bool :=
  !hasArrow l.data && !pyIsDigitStr (pyStrip l) && !(pyStrip l = "") &&
    !pyStartsWith "WEBVTT" l

/-- The parser loop: collect `line.strip()` for each kept line. -/
def vttLoop : List String → List String
  | [] => []
  | l :: rest => if keepLine l then pyStrip l :: vttLoop rest else vttLoop rest

/-- Models `transcript_text = " ".join(text_lines)` for a caption payload given
as its `splitlines()` result. -/
def vttExtract (lines : List String) : String :=
  String.intercalate " " (vttLoop lines)

/-- A `captions` entry of the mirror metadata JSON.  `none` fields model
missing keys (`cap.get(...)` returns Python `None`; `cap.get("code", "")`
defaults to `""`). -/
structure Caption where
  language : Option String
  code : Option String
  url : Option String
deriving DecidableEq

/-- The test `cap.get("language") == "English" or cap.get("code", "").startswith("en")`. -/
def englishPred (c : Caption) : Bool :=
  c.language = some "English" || pyStartsWith "en" (c.code.getD "")

/-- The caption-selection loop (lines 95-98): first entry satisfying
`englishPred`, if any. -/
def selectCaption : List Caption → Option Caption
  | [] => none
  | c :: rest => if englishPred c then some c else selectCaption rest

/-- One mirror of the fallback list, together with the responses the
network gives this request: `name` is the instance base URL;
`metaResp` is the result of the metadata GET at the instance video URL
(`none` = transport error or invalid JSON, i.e. an exception;
`some (status, captions)` = a response with that status code and
`data.get("captions", [])`); `capResp` likewise for the caption-payload
fetch, with the body already split into lines. -/
structure MirrorSpec where
  name : String
  metaResp : Option (Nat × List Caption)
  capResp : Option (Nat × List String)
deriving DecidableEq

/-- Outbound actions of one request, in order. -/
inductive Event where
  | primaryAttempt
  | metaReq (instanceName : String)
  | capReq (instanceName : String) (url : String)
  | modelCall
deriving DecidableEq

/-- Does the event contact the mirror whose base URL is `n`? -/
def mentionsMirror (n : String) (e : Event) : Bool :=
  match e with
  | Event.metaReq n' => n' = n
  | Event.capReq n' _ => n' = n
  | _ => false

/-- Is the event a mirror request at all? -/
def isMirrorReq (e : Event) : Bool :=
  match e with
  | Event.metaReq _ => true
  | Event.capReq _ _ => true
  | _ => false

/-- Number of metadata requests to instance `n` in a trace. -/
def countMeta (n : String) : List Event → Nat
  | [] => 0
  | e :: rest =>
    (match e with
     | Event.metaReq n' => if n' = n then 1 else 0
     | _ => 0) + countMeta n rest

/-- The caption URL a mirror iteration will fetch, if it gets that far:
metadata must answer with status 200, `selectCaption` must find an entry,
that entry must have a `url` value (`instance + cap.get("url")` raises
`TypeError` on `None`, failing the mirror), and the concatenation
`caption_url = instance + url` must be truthy (nonempty). -/
def mirrorCapUrl (m : MirrorSpec) : Option String :=
  match m.metaResp with
  | none => none
  | some (status, captions) =>
    if status = 200 then
      match selectCaption captions with
      | none => none
      | some cap =>
        match cap.url with
        | none => none
        | some u => if m.name ++ u = "" then none else some (m.name ++ u)
    else none

/-- Result of the caption-payload fetch: the parsed transcript on a 200
response (note: even when the parsed text is empty), `none` otherwise. -/
def capOutcome (m : MirrorSpec) : Option String :=
  match m.capResp with
  | none => none
  | some (st, lines) => if st = 200 then some (vttExtract lines) else none

/-- One iteration of the `for instance in invidious_instances` loop:
the trace of requests it issues, and `some text` iff it sets
`transcript_text` (and hence `break`s). -/
def tryMirror (m : MirrorSpec) : List Event × Option String :=
  match mirrorCapUrl m with
  | none => ([Event.metaReq m.name], none)
  | some cu => ([Event.metaReq m.name, Event.capReq m.name cu], capOutcome m)

/-- The whole mirror loop: iterate until some iteration sets
`transcript_text`, accumulating the request trace. -/
def tryMirrors : List MirrorSpec → List Event × Option String
  | [] => ([], none)
  | m :: rest =>
    match tryMirror m with
    | (evs, some t) => (evs, some t)
    | (evs, none) =>
      let r := tryMirrors rest
      (evs ++ r.1, r.2)

/-- Concatenated trace of a list of mirror iterations. -/
def mirrorsTrace : List MirrorSpec → List Event
  | [] => []
  | m :: rest => (tryMirror m).1 ++ mirrorsTrace rest

/-- Python exceptions the transcript phase can leave unhandled inside the
handler's outer `try`. -/
inductive PyExc where
  | httpExc (status : Nat) (detail : String)
deriving DecidableEq

/-- Detail of the exhaustion `HTTPException` raised at line 116. -/
def msg429 : String :=
  "YouTube blocked requests and all fallbacks failed. Please configure a proxy."

/-- Python `str(e)`; for a starlette/fastapi `HTTPException` this renders
as "<status_code>: <detail>". -/
def pyStrExc : PyExc → String
  | PyExc.httpExc status detail => toString status ++ ": " ++ detail

/-- Python str of the `AttributeError` raised by `.group(1)` when `re.search`
returns `None`. -/
def attrErrMsg : String :=
  "\x27NoneType\x27 object has no attribute \x27group\x27"

/-- The transcript phase (lines 44-117): the primary strategy, then — only
if it raised — the mirror loop, then the exhaustion check
`if not transcript_text: raise HTTPException(429, ...)` (which also fires
when a mirror broke the loop with an empty parsed text). -/
def getTranscript (primary : Option (List String)) (mirrors : List MirrorSpec) :
    List Event × Except PyExc String :=
  match primary with
  | some frags => ([Event.primaryAttempt], Except.ok (String.intercalate " " frags))
  | none =>
    match tryMirrors mirrors with
    | (evs, some t) =>
      if t = "" then
        (Event.primaryAttempt :: evs, Except.error (PyExc.httpExc 429 msg429))
      else (Event.primaryAttempt :: evs, Except.ok t)
    | (evs, none) =>
      (Event.primaryAttempt :: evs, Except.error (PyExc.httpExc 429 msg429))

/-- The static `invidious_instances` configuration (lines 75-83). -/
def invidious_instances : List String :=
  ["https://invidious.flokinet.to", "https://inv.tux.pizza",
   "https://vid.puffyan.us", "https://invidious.drgns.space",
   "https://invidious.privacydev.net", "https://yt.drgnz.club",
   "https://invidious.nerdvpn.de"]

/-- A JSON value, for response bodies. -/
inductive JVal where
  | jnull
  | jstr (s : String)
  | jnum (n : Int)
  | jobj (fields : List (String × JVal))
  | jarr (xs : List JVal)

/-- What one Gemini `generate_content` call returns: `text` is
`response.text` (`none` models Python `None`), `str` is `str(response)`
as used in the empty-response diagnostic `detail` field. -/
structure GenResp where
  text : Option String
  str : String

/-- Models `wait_exponential(multiplier=1, min=2, max=10)` evaluated after the
failed attempt numbered `attempt` (1-based), following tenacity:
`max(max(0, min), min(multiplier * 2 ** attempt_number, max))`. -/
def geminiWait (attempt : Nat) : Nat :=
  Nat.max (Nat.max 0 2) (Nat.min (1 * 2 ^ attempt) 10)

/-- The tenacity retry loop: run `oracle attempt`; on error, stop when no
further attempts remain (`stop_after_attempt`), else record the backoff
wait and retry.  Returns the final outcome, the list of waits, and the
number of the last attempt made. -/
def tenacityGo {α : Type} (oracle : Nat → Except String α) (wait : Nat → Nat) :
    Nat → Nat → Except String α × List Nat × Nat
  | attempt, 0 => (Except.error "", [], attempt - 1)
  | attempt, fuel + 1 =>
    match oracle attempt with
    | Except.ok v => (Except.ok v, [], attempt)
    | Except.error e =>
      if fuel = 0 then (Except.error e, [], attempt)
      else
        let r := tenacityGo oracle wait (attempt + 1) fuel
        (r.1, wait attempt :: r.2.1, r.2.2)

/-- Lines 26-34: `@retry(stop=stop_after_attempt(3),
wait=wait_exponential(multiplier=1, min=2, max=10))` around the Gemini
call, the call itself abstracted as an oracle indexed by attempt number. -/
def call_gemini_with_retry {α : Type} (oracle : Nat → Except String α) :
    Except String α × List Nat × Nat :=
  tenacityGo oracle geminiWait 1 3

/-- Diagnostic used when `response.text` is falsy (lines 151-154). -/
def emptyRespMsg : String :=
  "The AI model returned an empty response. This might be due to safety filters or overload."

/-- Lines 150-180: the JSON-parsing tail of the handler.  `decode` models
`json.loads` (`none` = `JSONDecodeError`). -/
def handleModelResponse (decode : String → Option JVal) (r : GenResp) : JVal :=
  match r.text with
  | none => JVal.jobj [("error", JVal.jstr emptyRespMsg), ("detail", JVal.jstr r.str)]
  | some t =>
    if t = "" then
      JVal.jobj [("error", JVal.jstr emptyRespMsg), ("detail", JVal.jstr r.str)]
    else
      match decode t with
      | some j => j
      | none =>
        JVal.jobj [("error", JVal.jstr "Failed to generate structured itinerary"),
                   ("raw_text", JVal.jstr t)]

/-- What FastAPI sends: a 200 JSON body, or an `HTTPException` rendered
as an error status plus detail. -/
inductive Response where
  | ok (body : JVal)
  | httpError (status : Nat) (detail : String)

/-- Is the response a 4xx client error? -/
def is4xx (r : Response) : Bool :=
  match r with
  | Response.httpError status _ => decide (400 ≤ status ∧ status < 500)
  | Response.ok _ => false

/-- The whole environment one request runs against. -/
structure Env where
  primary : Option (List String)
  mirrors : List MirrorSpec
  modelAttempts : Nat → Except String GenResp
  decode : String → Option JVal

/-- Lines 37-182: the full handler, including the boundary clause
`except Exception as e: raise HTTPException(status_code=500, detail=str(e))`.
Because `HTTPException` derives `Exception`, any `PyExc` escaping the body
— the exhaustion `HTTPException(429, ...)` included — reaches that clause
and is re-raised as a 500 whose detail is `str(e)`; likewise the
`AttributeError` from a failed video-id extraction. -/
def generate_itinerary (env : Env) (url : String) : List Event × Response :=
  match extract_video_id url with
  | none => ([], Response.httpError 500 attrErrMsg)
  | some _vid =>
    match getTranscript env.primary env.mirrors with
    | (evs, Except.error e) => (evs, Response.httpError 500 (pyStrExc e))
    | (evs, Except.ok _transcript) =>
      match (call_gemini_with_retry env.modelAttempts).1 with
      | Except.error e => (evs ++ [Event.modelCall], Response.httpError 500 e)
      | Except.ok r =>
        (evs ++ [Event.modelCall], Response.ok (handleModelResponse env.decode r))

/-! ### Helper lemmas -/

theorem vttLoop_eq_filter_map (lines : List String) :
    vttLoop lines = (lines.filter keepLine).map pyStrip := by
  induction lines with
  | nil => rfl
  | cons l rest ih =>
    by_cases h : keepLine l
    · rw [vttLoop, if_pos h, List.filter_cons_of_pos h, List.map_cons, ih]
    · rw [vttLoop, if_neg h, List.filter_cons_of_neg h, ih]

theorem tryMirror_trace (m : MirrorSpec) :
    (tryMirror m).1 = [Event.metaReq m.name]
    ∨ ∃ u, (tryMirror m).1 = [Event.metaReq m.name, Event.capReq m.name u] := by
  cases h : mirrorCapUrl m with
  | none => exact Or.inl (by simp [tryMirror, h])
  | some cu => exact Or.inr ⟨cu, by simp [tryMirror, h]⟩

theorem tryMirror_countMeta (m : MirrorSpec) (n : String) :
    countMeta n (tryMirror m).1 = if m.name = n then 1 else 0 := by
  rcases tryMirror_trace m with h | ⟨u, h⟩ <;> rw [h] <;> simp [countMeta]

theorem countMeta_append (n : String) (a b : List Event) :
    countMeta n (a ++ b) = countMeta n a + countMeta n b := by
  induction a with
  | nil => simp [countMeta]
  | cons e rest ih => simp [countMeta, ih, Nat.add_assoc]

/-- Occurrence count of a string in a list of strings. -/
def countName (n : String) : List String → Nat
  | [] => 0
  | x :: rest => (if x = n then 1 else 0) + countName n rest

theorem countName_eq_zero {n : String} {l : List String} (h : n ∉ l) :
    countName n l = 0 := by
  induction l with
  | nil => rfl
  | cons x rest ih =>
    have hx : ¬ x = n := fun hc => h (hc ▸ List.mem_cons_self x rest)
    rw [countName, if_neg hx, ih (fun hc => h (List.mem_cons_of_mem x hc))]

theorem countName_eq_one {n : String} {l : List String} (hnd : l.Nodup)
    (hm : n ∈ l) : countName n l = 1 := by
  induction l with
  | nil => cases hm
  | cons x rest ih =>
    rcases List.mem_cons.mp hm with rfl | hmem
    · rw [countName, if_pos rfl, countName_eq_zero (List.nodup_cons.mp hnd).1]
    · have hx : ¬ x = n := by
        rintro rfl
        exact (List.nodup_cons.mp hnd).1 hmem
      rw [countName, if_neg hx, ih (List.nodup_cons.mp hnd).2 hmem]

theorem mirrorsTrace_countMeta (n : String) (ms : List MirrorSpec) :
    countMeta n (mirrorsTrace ms) = countName n (ms.map MirrorSpec.name) := by
  induction ms with
  | nil => rfl
  | cons m rest ih =>
    rw [mirrorsTrace, countMeta_append, tryMirror_countMeta, ih, List.map_cons,
      countName]

theorem tryMirrors_cons_none {m : MirrorSpec} (rest : List MirrorSpec)
    (h : (tryMirror m).2 = none) :
    tryMirrors (m :: rest) =
      ((tryMirror m).1 ++ (tryMirrors rest).1, (tryMirrors rest).2) := by
  rw [tryMirrors]
  rcases hm : tryMirror m with ⟨evs, r⟩
  rw [hm] at h
  simp only at h
  subst h
  simp [hm]

theorem tryMirrors_cons_some {m : MirrorSpec} (rest : List MirrorSpec) {t : String}
    (h : (tryMirror m).2 = some t) :
    tryMirrors (m :: rest) = ((tryMirror m).1, some t) := by
  rw [tryMirrors]
  rcases hm : tryMirror m with ⟨evs, r⟩
  rw [hm] at h
  simp only at h
  subst h
  simp [hm]

theorem tryMirrors_split (pre : List MirrorSpec) (m : MirrorSpec)
    (post : List MirrorSpec) (t : String)
    (hpre : ∀ m' ∈ pre, (tryMirror m').2 = none)
    (hm : (tryMirror m).2 = some t) :
    tryMirrors (pre ++ m :: post) = (mirrorsTrace pre ++ (tryMirror m).1, some t) := by
  induction pre with
  | nil =>
    rw [List.nil_append, tryMirrors_cons_some post hm, mirrorsTrace, List.nil_append]
  | cons m' pre' ih =>
    have h1 : (tryMirror m').2 = none := hpre m' (List.mem_cons_self m' pre')
    rw [List.cons_append, tryMirrors_cons_none _ h1,
      ih (fun x hx => hpre x (List.mem_cons_of_mem m' hx))]
    rw [mirrorsTrace, List.append_assoc]

theorem mem_mirrorsTrace {e : Event} {ms : List MirrorSpec}
    (h : e ∈ mirrorsTrace ms) : ∃ m' ∈ ms, e ∈ (tryMirror m').1 := by
  induction ms with
  | nil => cases h
  | cons m rest ih =>
    rw [mirrorsTrace] at h
    rcases List.mem_append.mp h with h | h
    · exact ⟨m, List.mem_cons_self m rest, h⟩
    · rcases ih h with ⟨m', hm', he⟩
      exact ⟨m', List.mem_cons_of_mem m hm', he⟩

theorem tryMirror_mentions {m : MirrorSpec} {e : Event}
    (he : e ∈ (tryMirror m).1) (n : String) (hne : m.name ≠ n) :
    mentionsMirror n e = false := by
  rcases tryMirror_trace m with h | ⟨u, h⟩ <;> rw [h] at he <;> simp at he
  · subst he; simp [mentionsMirror, hne]
  · rcases he with he | he <;> subst he <;> simp [mentionsMirror, hne]

/-! ### Claim theorems -/

/-- Claim C3: the subtitle parser returns exactly the space-join, in
original order, of the trimmed lines that contain no `-->` marker, are
not pure (trimmed) digit sequences, are not blank after trimming, and do
not start with the `WEBVTT` header; all other lines are dropped. -/
theorem C3_vtt_extraction (lines : List String) :
    vttExtract lines =
      String.intercalate " "
        ((lines.filter fun l =>
            !hasArrow l.data && !pyIsDigitStr (pyStrip l) && !(pyStrip l = "") &&
              !pyStartsWith "WEBVTT" l).map pyStrip) := by
  show vttExtract lines = String.intercalate " " ((lines.filter keepLine).map pyStrip)
  rw [vttExtract, vttLoop_eq_filter_map]

/-- Claim C7: when the primary strategy succeeds with fragment texts, the
transcript is their space-join and the request trace contains no mirror
metadata or caption request at all. -/
theorem C7_primary_success_no_mirror (frags : List String) (mirrors : List MirrorSpec) :
    getTranscript (some frags) mirrors =
      ([Event.primaryAttempt], Except.ok (String.intercalate " " frags))
    ∧ ∀ e ∈ (getTranscript (some frags) mirrors).1, isMirrorReq e = false := by
  refine ⟨rfl, ?_⟩
  intro e he
  have : e = Event.primaryAttempt := by simpa [getTranscript] using he
  subst this
  rfl

/-- Claim C8: the caption chosen from a mirror's metadata is the first
entry whose `language` is `"English"` or whose `code` starts with `"en"`
(`List.find?` of that predicate); when no entry qualifies, the mirror
issues only its metadata request, fails, and the loop moves on to the
remaining mirrors unchanged. -/
theorem C8_caption_selection (caps : List Caption) :
    selectCaption caps = caps.find? englishPred
    ∧ ∀ (m : MirrorSpec) (rest : List MirrorSpec),
        m.metaResp = some (200, caps) → selectCaption caps = none →
        tryMirrors (m :: rest) =
          (Event.metaReq m.name :: (tryMirrors rest).1, (tryMirrors rest).2) := by
  constructor
  · induction caps with
    | nil => rfl
    | cons c rest ih =>
      by_cases h : englishPred c <;> simp [selectCaption, List.find?, h, ih]
  · intro m rest h1 h2
    have hcu : mirrorCapUrl m = none := by simp [mirrorCapUrl, h1, h2]
    have htm : tryMirror m = ([Event.metaReq m.name], none) := by
      simp [tryMirror, hcu]
    rw [tryMirrors_cons_none rest (by rw [htm]), htm, List.singleton_append]

/-- A caption entry with no English match, for the C8 witness. -/
def frCap : Caption := { language := some "French", code := some "fr", url := some "/fr" }

/-- A mirror whose metadata has no English caption, for the C8 witness. -/
def frMirror : MirrorSpec :=
  { name := "https://fr.example", metaResp := some (200, [frCap]), capResp := none }

/-- Witness for C8 at a concrete caption list with no English entry. -/
theorem C8_caption_selection_witness :
    selectCaption [frCap] = [frCap].find? englishPred
    ∧ tryMirrors [frMirror] =
        (Event.metaReq "https://fr.example" :: (tryMirrors []).1, (tryMirrors []).2) :=
  ⟨(C8_caption_selection [frCap]).1,
    (C8_caption_selection [frCap]).2 frMirror [] rfl rfl⟩

/-- Claim C5, amended: the caption URL taken from the metadata entry is
always prefixed with the mirror base URL (`caption_url = instance +
cap.get("url")`), whether it is relative or absolute. -/
theorem C5_caption_url_always_prefixed (m : MirrorSpec) (caps : List Caption)
    (cap : Caption) (u : String)
    (h1 : m.metaResp = some (200, caps)) (h2 : selectCaption caps = some cap)
    (h3 : cap.url = some u) (h4 : ¬(m.name ++ u = "")) :
    (tryMirror m).1 =
      [Event.metaReq m.name, Event.capReq m.name (m.name ++ u)] := by
  have hcu : mirrorCapUrl m = some (m.name ++ u) := by
    simp [mirrorCapUrl, h1, h2, h3, h4]
  simp [tryMirror, hcu]

/-- A mirror whose selected caption has an absolute URL. -/
def absCap : Caption :=
  { language := some "English", code := some "en", url := some "https://cdn.example/cap.vtt" }

/-- Mirror serving `absCap`, for the C5 counterexample. -/
def absMirror : MirrorSpec :=
  { name := "https://inv.example", metaResp := some (200, [absCap]),
    capResp := some (200, ["WEBVTT", "hello"]) }

/-- Counterexample for C5 as stated: the caption URL is absolute
(it starts with a scheme), yet the fetched URL is the mirror base glued
in front of it, and the absolute URL itself is never fetched. -/
theorem C5_counterexample :
    pyStartsWith "https://" "https://cdn.example/cap.vtt" = true
    ∧ (tryMirror absMirror).1 =
        [Event.metaReq "https://inv.example",
         Event.capReq "https://inv.example"
           "https://inv.examplehttps://cdn.example/cap.vtt"]
    ∧ Event.capReq "https://inv.example" "https://cdn.example/cap.vtt"
        ∉ (tryMirror absMirror).1 := by
  exact ⟨rfl, rfl, by decide⟩

/-- Caption with a relative URL, for the C5 witness. -/
def relCap : Caption :=
  { language := some "English", code := some "en", url := some "/api/captions" }

/-- Mirror serving `relCap`, for the C5 witness. -/
def relMirror : MirrorSpec :=
  { name := "https://inv.example", metaResp := some (200, [relCap]),
    capResp := some (200, ["hi"]) }

/-- Witness for the amended C5 at a concrete relative caption URL. -/
theorem C5_caption_url_witness :
    (tryMirror relMirror).1 =
      [Event.metaReq "https://inv.example",
       Event.capReq "https://inv.example" "https://inv.example/api/captions"] :=
  C5_caption_url_always_prefixed relMirror [relCap] relCap "/api/captions"
    rfl rfl rfl (by decide)

/-- Claim C2, amended: if the primary strategy fails and mirror `m` is the
first mirror whose iteration sets `transcript_text` (i.e. reaches a 200
caption payload; every earlier mirror's iteration yields nothing), and
`m`'s extracted text is non-empty, then the resolver succeeds with exactly
that text, each earlier mirror was attempted exactly once (one metadata
request each), and no later mirror is ever contacted.  Iteration stops at
the first mirror that obtains a 200 caption payload — even one whose
extracted text is empty, as the C2 counterexample shows. -/
theorem C2_mirror_fallback (pre post : List MirrorSpec) (m : MirrorSpec) (t : String)
    (hpre : ∀ m' ∈ pre, (tryMirror m').2 = none)
    (hm : (tryMirror m).2 = some t)
    (ht : ¬(t = ""))
    (hnodup : ((pre ++ m :: post).map MirrorSpec.name).Nodup) :
    getTranscript none (pre ++ m :: post) =
      (Event.primaryAttempt :: (mirrorsTrace pre ++ (tryMirror m).1), Except.ok t)
    ∧ (∀ m' ∈ pre, countMeta m'.name (getTranscript none (pre ++ m :: post)).1 = 1)
    ∧ (∀ m'' ∈ post, ∀ e ∈ (getTranscript none (pre ++ m :: post)).1,
        mentionsMirror m''.name e = false) := by
  have hsplit := tryMirrors_split pre m post t hpre hm
  have hgt : getTranscript none (pre ++ m :: post) =
      (Event.primaryAttempt :: (mirrorsTrace pre ++ (tryMirror m).1), Except.ok t) := by
    simp [getTranscript, hsplit, ht]
  have hmap : (pre ++ m :: post).map MirrorSpec.name =
      pre.map MirrorSpec.name ++ m.name :: post.map MirrorSpec.name := by simp
  rw [hmap] at hnodup
  rcases List.nodup_append.mp hnodup with ⟨hndPre, hndRest, hdisj⟩
  refine ⟨hgt, ?_, ?_⟩
  · intro m' hm'
    rw [hgt]
    have hstep : countMeta m'.name
        (Event.primaryAttempt :: (mirrorsTrace pre ++ (tryMirror m).1)) =
        countMeta m'.name (mirrorsTrace pre) + countMeta m'.name (tryMirror m).1 := by
      simp [countMeta, countMeta_append]
    rw [hstep, mirrorsTrace_countMeta, tryMirror_countMeta,
      countName_eq_one hndPre (List.mem_map_of_mem MirrorSpec.name hm')]
    have hne : ¬ m.name = m'.name := by
      intro heq
      exact hdisj (List.mem_map_of_mem MirrorSpec.name hm')
        (heq ▸ List.mem_cons_self m.name (post.map MirrorSpec.name))
    rw [if_neg hne]
  · intro m'' hm'' e he
    rw [hgt] at he
    rcases List.mem_cons.mp he with rfl | he'
    · rfl
    · rcases List.mem_append.mp he' with hp | hmm
      · rcases mem_mirrorsTrace hp with ⟨m', hm', he''⟩
        refine tryMirror_mentions he'' m''.name ?_
        intro heq
        exact hdisj (List.mem_map_of_mem MirrorSpec.name hm')
          (heq ▸ List.mem_cons_of_mem m.name (List.mem_map_of_mem MirrorSpec.name hm''))
      · refine tryMirror_mentions hmm m''.name ?_
        intro heq
        exact (List.nodup_cons.mp hndRest).1
          (heq ▸ List.mem_map_of_mem MirrorSpec.name hm'')

/-- Mirror whose caption payload is a 200 response parsing to the empty
string (a header line and a timing line only). -/
def emptyCapMirror : MirrorSpec :=
  { name := "https://m0.example",
    metaResp := some (200, [{ language := some "English", code := some "en",
                              url := some "/cap0" }]),
    capResp := some (200, ["WEBVTT", "00:00:01.000 --> 00:00:02.000"]) }

/-- Mirror that fully succeeds with transcript "Visit Paris". -/
def parisMirror : MirrorSpec :=
  { name := "https://m1.example",
    metaResp := some (200, [{ language := some "English", code := some "en",
                              url := some "/cap1" }]),
    capResp := some (200, ["WEBVTT", "Visit Paris"]) }

/-- Counterexample for C2 as stated: `parisMirror` is the first (and only)
mirror that succeeds in the claim's sense — 200 metadata, English caption,
200 payload, non-empty text — `emptyCapMirror` before it is not such a
success (its extracted text is empty).  Yet the resolver does not return
"Visit Paris": the loop breaks at `emptyCapMirror` with an empty
transcript, `parisMirror` is never contacted, and the request fails with
the exhaustion error.  So iteration does not stop only on successful
non-empty extraction. -/
theorem C2_counterexample :
    (tryMirror parisMirror).2 = some "Visit Paris"
    ∧ (tryMirror emptyCapMirror).2 = some ""
    ∧ (getTranscript none [emptyCapMirror, parisMirror]).2 =
        Except.error (PyExc.httpExc 429 msg429)
    ∧ Event.metaReq "https://m1.example"
        ∉ (getTranscript none [emptyCapMirror, parisMirror]).1 := by
  exact ⟨rfl, rfl, rfl, by decide⟩

/-- A mirror that fails at the metadata step (404), for the C2 witness. -/
def failMirror : MirrorSpec :=
  { name := "https://wf.example", metaResp := some (404, []), capResp := none }

/-- A mirror after the successful one, for the C2 witness. -/
def postMirror : MirrorSpec :=
  { name := "https://wp.example", metaResp := none, capResp := none }

/-- Witness for the amended C2 on the list
`[failMirror, parisMirror, postMirror]`. -/
theorem C2_mirror_fallback_witness :
    getTranscript none ([failMirror] ++ parisMirror :: [postMirror]) =
      (Event.primaryAttempt ::
        (mirrorsTrace [failMirror] ++ (tryMirror parisMirror).1), Except.ok "Visit Paris")
    ∧ (∀ m' ∈ [failMirror],
        countMeta m'.name
          (getTranscript none ([failMirror] ++ parisMirror :: [postMirror])).1 = 1)
    ∧ (∀ m'' ∈ [postMirror],
        ∀ e ∈ (getTranscript none ([failMirror] ++ parisMirror :: [postMirror])).1,
          mentionsMirror m''.name e = false) :=
  C2_mirror_fallback [failMirror] [postMirror] parisMirror "Visit Paris"
    (by intro m' h; rw [List.mem_singleton] at h; subst h; rfl)
    rfl (by decide) (by decide)

/-- Environment in which the primary strategy raises and the single
configured mirror fails (503 metadata). -/
def exhaustedEnv : Env :=
  { primary := none,
    mirrors := [{ name := "https://inv.example", metaResp := some (503, []),
                  capResp := none }],
    modelAttempts := fun _ => Except.ok { text := some "x", str := "r" },
    decode := fun _ => none }

/-- Claim C1 (code bug): with the primary strategy and every mirror
failing, the transcript phase does raise `HTTPException(429, msg429)` —
but the handler's own `except Exception` clause catches it (fastapi's
`HTTPException` derives `Exception`) and re-raises
`HTTPException(500, str(e))`, so the request actually terminates with a
generic 500 whose detail merely embeds "429: ...", not with status 429. -/
theorem C1_exhaustion_surfaces_as_500 :
    (getTranscript none exhaustedEnv.mirrors).2 =
        Except.error (PyExc.httpExc 429 msg429)
    ∧ generate_itinerary exhaustedEnv "https://www.youtube.com/watch?v=dQw4w9WgXcQ" =
        ([Event.primaryAttempt, Event.metaReq "https://inv.example"],
         Response.httpError 500 ("429: " ++ msg429))
    ∧ is4xx (generate_itinerary exhaustedEnv
        "https://www.youtube.com/watch?v=dQw4w9WgXcQ").2 = false := by
  exact ⟨rfl, rfl, rfl⟩

/-- Claim C6, amended: when the URL contains no extractable video id, the
request fails immediately — before any transcript strategy or model call
(the request trace is empty) — but with a generic 500 server error whose
detail is the `AttributeError` message, because the `AttributeError`
raised by `.group(1)` falls into the boundary handler; no 4xx response is
produced. -/
theorem C6_extraction_failure_500 (env : Env) (url : String)
    (h : extract_video_id url = none) :
    generate_itinerary env url = ([], Response.httpError 500 attrErrMsg) := by
  simp [generate_itinerary, h]

/-- Benign environment for the C6 counterexample and witness. -/
def benignEnv : Env :=
  { primary := some ["ok"], mirrors := [],
    modelAttempts := fun _ => Except.ok { text := some "x", str := "r" },
    decode := fun _ => none }

/-- Counterexample for C6 as stated: for a URL with no recognizable video
identifier the endpoint answers with HTTP 500 (the stringified
`AttributeError`), which is not a 4xx client error. -/
theorem C6_counterexample :
    extract_video_id "https://example.com" = none
    ∧ generate_itinerary benignEnv "https://example.com" =
        ([], Response.httpError 500 attrErrMsg)
    ∧ is4xx (generate_itinerary benignEnv "https://example.com").2 = false := by
  exact ⟨rfl, rfl, rfl⟩

/-- Witness for the amended C6 at a concrete identifier-free URL. -/
theorem C6_extraction_failure_witness :
    generate_itinerary benignEnv "https://example.com" =
      ([], Response.httpError 500 attrErrMsg) :=
  C6_extraction_failure_500 benignEnv "https://example.com" rfl

/-- Claim C9: the Gemini call makes at most 3 attempts; the recorded
backoff waits follow `wait_exponential(multiplier=1, min=2, max=10)`
(the wait after failed attempt `i` is `max 2 (min (2 ^ i) 10)`), so they
start at 2 and never exceed 10; and when all 3 attempts fail the retry
budget is exhausted and the call resolves to the error, which then
propagates to the boundary handler. -/
theorem C9_gemini_retry {α : Type} (oracle : Nat → Except String α) :
    (call_gemini_with_retry oracle).2.2 ≤ 3
    ∧ (call_gemini_with_retry oracle).2.1 =
        (List.range ((call_gemini_with_retry oracle).2.2 - 1)).map
          (fun i => geminiWait (i + 1))
    ∧ (∀ w ∈ (call_gemini_with_retry oracle).2.1, 2 ≤ w ∧ w ≤ 10)
    ∧ ((call_gemini_with_retry oracle).2.1 ≠ [] →
        (call_gemini_with_retry oracle).2.1.head? = some 2)
    ∧ ((∀ k, 1 ≤ k → k ≤ 3 → ∃ e, oracle k = Except.error e) →
        (∃ e, (call_gemini_with_retry oracle).1 = Except.error e)
        ∧ (call_gemini_with_retry oracle).2.2 = 3) := by
  cases h1 : oracle 1 with
  | ok v1 =>
    have hc : call_gemini_with_retry oracle = (Except.ok v1, [], 1) := by
      simp [call_gemini_with_retry, tenacityGo, h1]
    refine ⟨by rw [hc]; show (1 : Nat) ≤ 3; omega, by rw [hc]; rfl, ?_, ?_, ?_⟩
    · rw [hc]; intro w hw; cases hw
    · rw [hc]; intro hne; exact absurd rfl hne
    · intro hall
      rcases hall 1 (by omega) (by omega) with ⟨e, he⟩
      rw [h1] at he; cases he
  | error e1 =>
    cases h2 : oracle 2 with
    | ok v2 =>
      have hc : call_gemini_with_retry oracle = (Except.ok v2, [geminiWait 1], 2) := by
        simp [call_gemini_with_retry, tenacityGo, h1, h2]
      refine ⟨by rw [hc]; show (2 : Nat) ≤ 3; omega, by rw [hc]; rfl, ?_, ?_, ?_⟩
      · rw [hc]
        intro w hw
        rw [List.mem_singleton] at hw
        subst hw
        constructor <;> decide
      · rw [hc]; intro _; rfl
      · intro hall
        rcases hall 2 (by omega) (by omega) with ⟨e, he⟩
        rw [h2] at he; cases he
    | error e2 =>
      cases h3 : oracle 3 with
      | ok v3 =>
        have hc : call_gemini_with_retry oracle =
            (Except.ok v3, [geminiWait 1, geminiWait 2], 3) := by
          simp [call_gemini_with_retry, tenacityGo, h1, h2, h3]
        refine ⟨by rw [hc], by rw [hc]; rfl, ?_, ?_, ?_⟩
        · rw [hc]
          intro w hw
          rcases List.mem_cons.mp hw with rfl | hw
          · constructor <;> decide
          · rw [List.mem_singleton] at hw
            subst hw
            constructor <;> decide
        · rw [hc]; intro _; rfl
        · intro hall
          rcases hall 3 (by omega) (by omega) with ⟨e, he⟩
          rw [h3] at he; cases he
      | error e3 =>
        have hc : call_gemini_with_retry oracle =
            (Except.error e3, [geminiWait 1, geminiWait 2], 3) := by
          simp [call_gemini_with_retry, tenacityGo, h1, h2, h3]
        refine ⟨by rw [hc], by rw [hc]; rfl, ?_, ?_, ?_⟩
        · rw [hc]
          intro w hw
          rcases List.mem_cons.mp hw with rfl | hw
          · constructor <;> decide
          · rw [List.mem_singleton] at hw
            subst hw
            constructor <;> decide
        · rw [hc]; intro _; rfl
        · intro _
          exact ⟨⟨e3, by rw [hc]⟩, by rw [hc]⟩

/-- An oracle that always fails, for the C9 witness. -/
def alwaysFail : Nat → Except String GenResp := fun _ => Except.error "boom"

/-- Witness for C9: with every attempt failing, the call is exhausted
after exactly 3 attempts and resolves to an error. -/
theorem C9_gemini_retry_witness :
    (∃ e, (call_gemini_with_retry alwaysFail).1 = Except.error e)
    ∧ (call_gemini_with_retry alwaysFail).2.2 = 3 :=
  (C9_gemini_retry alwaysFail).2.2.2.2 (fun _ _ _ => ⟨"boom", rfl⟩)

/-- Claim C10: once a transcript was obtained and the model call
succeeded, an empty (or `None`) `response.text` yields a normal 200 JSON
body with an `error` field and the `str(response)` diagnostic in
`detail`; a non-empty text that `json.loads` rejects yields a normal 200
JSON body with an `error` field and the raw offending text in
`raw_text`.  Neither case is an HTTP failure or an exception. -/
theorem C10_malformed_model_output (env : Env) (url vid tx : String)
    (evs : List Event) (r : GenResp)
    (h1 : extract_video_id url = some vid)
    (h2 : getTranscript env.primary env.mirrors = (evs, Except.ok tx))
    (h3 : (call_gemini_with_retry env.modelAttempts).1 = Except.ok r) :
    ((r.text = none ∨ r.text = some "") →
      (generate_itinerary env url).2 =
        Response.ok (JVal.jobj [("error", JVal.jstr emptyRespMsg),
                                ("detail", JVal.jstr r.str)]))
    ∧ (∀ s, r.text = some s → ¬(s = "") → env.decode s = none →
      (generate_itinerary env url).2 =
        Response.ok (JVal.jobj
          [("error", JVal.jstr "Failed to generate structured itinerary"),
           ("raw_text", JVal.jstr s)])) := by
  have hgen : generate_itinerary env url =
      (evs ++ [Event.modelCall], Response.ok (handleModelResponse env.decode r)) := by
    simp [generate_itinerary, h1, h2, h3]
  constructor
  · rintro (htxt | htxt) <;> rw [hgen] <;> simp [handleModelResponse, htxt]
  · intro s hs hne hdec
    rw [hgen]
    simp [handleModelResponse, hs, hne, hdec]

/-- Environment whose model call answers with an empty text, for the C10
witness. -/
def emptyRespEnv : Env :=
  { primary := some ["hello world"], mirrors := [],
    modelAttempts := fun _ => Except.ok { text := some "", str := "RESP" },
    decode := fun _ => none }

/-- Witness for C10: a concrete run in which the model answers with empty
text produces the structured error body as a normal response. -/
theorem C10_malformed_model_output_witness :
    (generate_itinerary emptyRespEnv
        "https://www.youtube.com/watch?v=dQw4w9WgXcQ").2 =
      Response.ok (JVal.jobj [("error", JVal.jstr emptyRespMsg),
                              ("detail", JVal.jstr "RESP")]) :=
  (C10_malformed_model_output emptyRespEnv
      "https://www.youtube.com/watch?v=dQw4w9WgXcQ" "dQw4w9WgXcQ" "hello world"
      [Event.primaryAttempt] { text := some "", str := "RESP" }
      rfl rfl rfl).1 (Or.inr rfl)

/-! ### Lemmas about the video-id regex search -/

theorem try11_some {l t : List Char} (h : try11 l = some t) :
    t = l.take 11 ∧ t.length = 11 ∧ t.all isIdChar = true := by
  unfold try11 at h
  by_cases hc : (l.take 11).length = 11 && (l.take 11).all isIdChar
  · rw [if_pos hc] at h
    injection h with h
    have hc' : (l.take 11).length = 11 ∧ (l.take 11).all isIdChar = true := by
      simpa using hc
    exact ⟨h.symm, h ▸ hc'.1, h ▸ hc'.2⟩
  · rw [if_neg hc] at h
    cases h

theorem try11_complete {t s : List Char} (hlen : t.length = 11)
    (hall : t.all isIdChar = true) : try11 (t ++ s) = some t := by
  have htake : (t ++ s).take 11 = t := by
    rw [← hlen, List.take_left]
  unfold try11
  rw [htake, if_pos (by rw [hlen, hall]; rfl)]

theorem matchAt_sound {l t : List Char} (h : matchAt l = some t) :
    ∃ mk s, (mk = ['v', '='] ∨ mk = ['/']) ∧ l = mk ++ t ++ s ∧
      t.length = 11 ∧ t.all isIdChar = true := by
  by_cases h2 : l.take 2 = ['v', '=']
  · rw [matchAt, if_pos h2] at h
    obtain ⟨ht, hlen, hall⟩ := try11_some h
    refine ⟨['v', '='], (l.drop 2).drop 11, Or.inl rfl, ?_, hlen, hall⟩
    subst ht
    conv_lhs => rw [← List.take_append_drop 2 l]
    rw [h2, List.append_assoc, List.take_append_drop]
  · by_cases h1 : l.take 1 = ['/']
    · rw [matchAt, if_neg h2, if_pos h1] at h
      obtain ⟨ht, hlen, hall⟩ := try11_some h
      refine ⟨['/'], (l.drop 1).drop 11, Or.inr rfl, ?_, hlen, hall⟩
      subst ht
      conv_lhs => rw [← List.take_append_drop 1 l]
      rw [h1, List.append_assoc, List.take_append_drop]
    · rw [matchAt, if_neg h2, if_neg h1] at h
      cases h

theorem matchAt_complete {mk t s : List Char} (hmk : mk = ['v', '='] ∨ mk = ['/'])
    (hlen : t.length = 11) (hall : t.all isIdChar = true) :
    matchAt (mk ++ t ++ s) = some t := by
  rcases hmk with rfl | rfl
  · have hshape : ['v', '='] ++ t ++ s = 'v' :: '=' :: (t ++ s) := by simp
    rw [hshape, matchAt]
    rw [if_pos (by simp [List.take_succ_cons])]
    have : ('v' :: '=' :: (t ++ s)).drop 2 = t ++ s := rfl
    rw [this, try11_complete hlen hall]
  · have hshape : ['/'] ++ t ++ s = '/' :: (t ++ s) := by simp
    rw [hshape, matchAt]
    have hne : ¬ ('/' :: (t ++ s)).take 2 = ['v', '='] := by
      rw [List.take_succ_cons]
      intro hc
      injection hc with h1 h2
      exact absurd h1 (by decide)
    rw [if_neg hne, if_pos (by simp [List.take_succ_cons])]
    have : ('/' :: (t ++ s)).drop 1 = t ++ s := rfl
    rw [this, try11_complete hlen hall]

theorem searchId_some_iff {l t : List Char} :
    searchId l = some t ↔
      ∃ n, matchAt (l.drop n) = some t ∧ ∀ j, j < n → matchAt (l.drop j) = none := by
  induction l with
  | nil =>
    constructor
    · intro h; cases h
    · rintro ⟨n, hn, _⟩
      rw [List.drop_nil] at hn
      cases hn
  | cons c rest ih =>
    cases hm : matchAt (c :: rest) with
    | some t0 =>
      have hs : searchId (c :: rest) = some t0 := by
        rw [searchId, hm]
      rw [hs]
      constructor
      · intro h
        injection h with h
        subst h
        exact ⟨0, by rw [List.drop_zero]; exact hm, by intro j hj; omega⟩
      · rintro ⟨n, hn, hmin⟩
        cases n with
        | zero =>
          rw [List.drop_zero, hm] at hn
          exact hn
        | succ k =>
          have := hmin 0 (Nat.succ_pos k)
          rw [List.drop_zero, hm] at this
          cases this
    | none =>
      have hs : searchId (c :: rest) = searchId rest := by
        rw [searchId, hm]
      rw [hs, ih]
      constructor
      · rintro ⟨n, hn, hmin⟩
        refine ⟨n + 1, ?_, ?_⟩
        · rwa [List.drop_succ_cons]
        · intro j hj
          cases j with
          | zero => rw [List.drop_zero]; exact hm
          | succ k => rw [List.drop_succ_cons]; exact hmin k (by omega)
      · rintro ⟨n, hn, hmin⟩
        cases n with
        | zero =>
          rw [List.drop_zero, hm] at hn
          cases hn
        | succ k =>
          rw [List.drop_succ_cons] at hn
          refine ⟨k, hn, fun j hj => ?_⟩
          have := hmin (j + 1) (by omega)
          rwa [List.drop_succ_cons] at this

theorem drop_decomposition_matches {l p mk t s : List Char}
    (heq : l = p ++ (mk ++ (t ++ s))) (hmk : mk = ['v', '='] ∨ mk = ['/'])
    (hlen : t.length = 11) (hall : t.all isIdChar = true) :
    matchAt (l.drop p.length) = some t := by
  rw [heq, List.drop_left, ← List.append_assoc]
  exact matchAt_complete hmk hlen hall

/-- Claim C4, amended: if the URL contains an 11-character identifier of
the class `[0-9A-Za-z_-]` right after a `v=` or `/` marker, extraction
succeeds and returns exactly the token at the leftmost such occurrence —
an 11-character class token that does occur in the URL after a marker,
at a position no later than any other such occurrence. -/
theorem C4_extraction_leftmost (url : String)
    (h : ∃ p mk t s, url.data = p ++ (mk ++ (t ++ s))
          ∧ (mk = ['v', '='] ∨ mk = ['/'])
          ∧ t.length = 11 ∧ t.all isIdChar = true) :
    ∃ t p mk s, extract_video_id url = some (String.mk t)
      ∧ url.data = p ++ (mk ++ (t ++ s))
      ∧ (mk = ['v', '='] ∨ mk = ['/'])
      ∧ t.length = 11 ∧ t.all isIdChar = true
      ∧ ∀ p' mk' t' s', url.data = p' ++ (mk' ++ (t' ++ s')) →
          (mk' = ['v', '='] ∨ mk' = ['/']) → t'.length = 11 →
          t'.all isIdChar = true → p.length ≤ p'.length := by
  obtain ⟨p0, mk0, t0, s0, heq0, hmk0, hlen0, hall0⟩ := h
  have hP : ∃ n, (matchAt (url.data.drop n)).isSome := by
    refine ⟨p0.length, ?_⟩
    rw [drop_decomposition_matches heq0 hmk0 hlen0 hall0]
    rfl
  have hn0 : (matchAt (url.data.drop (Nat.find hP))).isSome := Nat.find_spec hP
  have hmin : ∀ j, j < Nat.find hP → matchAt (url.data.drop j) = none := by
    intro j hj
    have hnot := Nat.find_min hP hj
    cases hcase : matchAt (url.data.drop j) with
    | none => rfl
    | some tx => exact absurd (by rw [hcase]; rfl) hnot
  obtain ⟨tr, htr⟩ := Option.isSome_iff_exists.mp hn0
  have hsearch : searchId url.data = some tr :=
    searchId_some_iff.mpr ⟨Nat.find hP, htr, hmin⟩
  obtain ⟨mkr, sr, hmkr, heqr, hlenr, hallr⟩ := matchAt_sound htr
  have hn0le : Nat.find hP ≤ url.data.length := by
    by_contra hgt
    push_neg at hgt
    rw [List.drop_eq_nil_of_le (le_of_lt hgt)] at htr
    cases htr
  have hdec : url.data = url.data.take (Nat.find hP) ++ (mkr ++ (tr ++ sr)) := by
    conv_lhs => rw [← List.take_append_drop (Nat.find hP) url.data]
    rw [heqr, List.append_assoc]
  have hplen : (url.data.take (Nat.find hP)).length = Nat.find hP := by
    rw [List.length_take]
    exact Nat.min_eq_left hn0le
  refine ⟨tr, url.data.take (Nat.find hP), mkr, sr, ?_, hdec, hmkr, hlenr, hallr, ?_⟩
  · rw [extract_video_id, hsearch]
    rfl
  · intro p' mk' t' s' heq' hmk' hlen' hall'
    have h' := drop_decomposition_matches heq' hmk' hlen' hall'
    rw [hplen]
    by_contra hlt
    push_neg at hlt
    rw [hmin p'.length hlt] at h'
    cases h'

/-- Counterexample for C4 as stated: the URL
`"v=aaaaaaaaaaa/bbbbbbbbbbb"` contains the valid 11-character identifier
`bbbbbbbbbbb` in path-segment form, yet extraction does not return that
token — it returns the earlier `aaaaaaaaaaa`. -/
theorem C4_counterexample :
    ("v=aaaaaaaaaaa/bbbbbbbbbbb" : String).data =
        ("v=aaaaaaaaaaa" : String).data ++
          (['/'] ++ (("bbbbbbbbbbb" : String).data ++ []))
    ∧ ("bbbbbbbbbbb" : String).data.length = 11
    ∧ ("bbbbbbbbbbb" : String).data.all isIdChar = true
    ∧ extract_video_id "v=aaaaaaaaaaa/bbbbbbbbbbb" ≠ some "bbbbbbbbbbb"
    ∧ extract_video_id "v=aaaaaaaaaaa/bbbbbbbbbbb" = some "aaaaaaaaaaa" := by
  exact ⟨by decide, by decide, by decide, by decide, by decide⟩

/-- Witness for the amended C4 at a standard watch URL. -/
theorem C4_extraction_leftmost_witness :
    ∃ t p mk s,
      extract_video_id "https://www.youtube.com/watch?v=dQw4w9WgXcQ" =
        some (String.mk t)
      ∧ ("https://www.youtube.com/watch?v=dQw4w9WgXcQ" : String).data =
          p ++ (mk ++ (t ++ s))
      ∧ (mk = ['v', '='] ∨ mk = ['/'])
      ∧ t.length = 11 ∧ t.all isIdChar = true
      ∧ ∀ p' mk' t' s',
          ("https://www.youtube.com/watch?v=dQw4w9WgXcQ" : String).data =
            p' ++ (mk' ++ (t' ++ s')) →
          (mk' = ['v', '='] ∨ mk' = ['/']) → t'.length = 11 →
          t'.all isIdChar = true → p.length ≤ p'.length :=
  C4_extraction_leftmost "https://www.youtube.com/watch?v=dQw4w9WgXcQ"
    ⟨("https://www.youtube.com/watch?" : String).data, ['v', '='],
     ("dQw4w9WgXcQ" : String).data, [], by decide, Or.inl rfl, by decide, by decide⟩

end Travel
